import Mathlib

/-!
Verification of the code-review agent system's core algorithms against its
natural-language specification.  The Python source is shallowly embedded:
strings are modelled as `List Char` (`Str`), Python dictionaries with
optional keys as structures with `Option` fields, Python floats as `ℚ`
(every score arithmetic step in the source is an exact multiple of 0.5, so
rational arithmetic is a faithful model of the source's float arithmetic),
and the two external effectful collaborators (the CPython `ast.parse`
routine and the LLM "Reviewer" call) as explicit oracle parameters.
-/

/-- Python strings are modelled as lists of characters. -/
abbrev Str := List Char

namespace PyStr

/-- Python `str.lower()` (faithful on the ASCII alphabet used by the
source's patterns and keywords). -/
def lower (s : Str) : Str := s.map Char.toLower

/-- The character class of Python's `str.strip()` / regex `\s`
(ASCII whitespace). -/
def is_space (c : Char) : Bool :=
  c = ' ' || c = '\t' || c = '\n' || c = '\r' || c = '\x0b' || c = '\x0c'

/-- `s.strip() == ""`: every character is whitespace. -/
def is_blank (s : Str) : Bool := s.all is_space

/-- Python `str.strip()`: drop whitespace from both ends. -/
def strip (s : Str) : Str :=
  ((s.dropWhile is_space).reverse.dropWhile is_space).reverse

/-- Python's substring test `needle in hay`. -/
def contains : (needle hay : Str) → Bool
  | needle, [] => needle.isEmpty
  | needle, c :: rest => needle.isPrefixOf (c :: rest) || contains needle rest

/-- Python `text.split("\n")`. -/
def split_char (sep : Char) : Str → List Str
  | [] => [[]]
  | c :: rest =>
    if c = sep then [] :: split_char sep rest
    else
      match split_char sep rest with
      | [] => [[c]]
      | h :: t => (c :: h) :: t

/-- Worker for `split_seq`: `skip` counts separator characters still to be
consumed after a separator occurrence was recognised at an earlier
position. -/
def split_seq_aux (sep : Str) : Str → Nat → List Str
  | [], _ => [[]]
  | _ :: rest, skip + 1 => split_seq_aux sep rest skip
  | c :: rest, 0 =>
    if sep.isPrefixOf (c :: rest) then
      [] :: split_seq_aux sep rest (sep.length - 1)
    else
      match split_seq_aux sep rest 0 with
      | [] => [[c]]
      | h :: t => (c :: h) :: t

/-- Python `text.split(sep)` for a non-empty separator, scanning left to
right over non-overlapping occurrences. -/
def split_seq (sep : Str) (s : Str) : List Str := split_seq_aux sep s 0

/-- Python `int(...)` on a non-empty run of decimal digits. -/
def digits_to_nat (ds : Str) : Nat :=
  ds.foldl (fun n c => n * 10 + (c.toNat - '0'.toNat)) 0

/-- One attempt of the regex `line\s+(\d+)` anchored at the head of `cs`:
the literal `line`, one or more whitespace characters, then the maximal
(greedy) run of digits, converted to a number. -/
def line_tok_at (cs : Str) : Option Nat :=
  if ('l' :: 'i' :: 'n' :: 'e' :: []).isPrefixOf cs then
    let rest := cs.drop 4
    let ws := rest.takeWhile is_space
    if ws.isEmpty then none
    else
      let ds := (rest.dropWhile is_space).takeWhile Char.isDigit
      if ds.isEmpty then none else some (digits_to_nat ds)
  else none

/-- `re.search(r'line\s+(\d+)', s)`: the leftmost position where the
pattern matches, yielding `int(group(1))`. -/
def find_line_num : Str → Option Nat
  | [] => none
  | c :: rest =>
    match line_tok_at (c :: rest) with
    | some n => some n
    | none => find_line_num rest

/-- A regex word character (`\w`): letter, digit or underscore. -/
def is_word_char (c : Char) : Bool := c.isAlphanum || c = '_'

/-- Scanner state for counting `\b\d+\b` matches on a line. -/
structure NumScan where
  count : Nat
  in_run : Bool
  run_ok : Bool
  prev_word : Bool

/-- One step of the standalone-number scanner. -/
def num_step (st : NumScan) (c : Char) : NumScan :=
  if c.isDigit then
    if st.in_run then { st with prev_word := true }
    else { st with in_run := true, run_ok := !st.prev_word, prev_word := true }
  else
    { count := st.count +
        (if st.in_run && st.run_ok && !(is_word_char c) then 1 else 0),
      in_run := false, run_ok := false, prev_word := is_word_char c }

/-- `len(re.findall(r'\b\d+\b', line))`: the number of maximal digit runs
bounded by word boundaries on both sides. -/
def count_standalone_numbers (s : Str) : Nat :=
  let st := s.foldl num_step ⟨0, false, false, false⟩
  st.count + (if st.in_run && st.run_ok then 1 else 0)

end PyStr

/-! ## Data model

Findings are Python dicts whose key sets vary by producer; absent keys are
`none`.  The axis key differs by dimension: security/documentation/syntax
and best-practices findings carry `severity`, performance findings carry
`impact`, security pattern findings carry a list `lineList` (the dict key
`lines`).  `message` is built from scanned text, hence a `Str`. -/
structure Finding where
  ftype : String
  severity : Option String := none
  impact : Option String := none
  message : Str := []
  line : Option Nat := none
  lineList : List Nat := []
  category : Option String := none
  suggestion : Option String := none
  agent : Option String := none
deriving DecidableEq, Repr

/-- One entry of the security agent's `_check_security_patterns` output. -/
structure PatternMatch where
  ptype : String
  pattern : String
  lineNums : List Nat
  severity : String
deriving DecidableEq, Repr

/-- The `complexity` dict computed by `ASTAnalyzer._calculate_complexity`. -/
structure CMetrics where
  cyclomatic : Nat
  max_nesting : Nat
  function_count : Nat
  class_count : Nat
deriving DecidableEq, Repr

/-! ## Python abstract syntax trees

Only the node distinctions the source inspects are modelled: the decision
kinds counted by `_calculate_complexity` (`ast.If/For/While/Try/With`),
`FunctionDef` and `ClassDef` (with name and whether `ast.get_docstring`
returns a docstring), and an opaque kind for every other node.  Children
are in `ast.iter_child_nodes` order. -/
inductive NodeKind where
  | if_node
  | for_node
  | while_node
  | try_node
  | with_node
  | function_node (name : String) (has_docstring : Bool)
  | class_node (name : String) (has_docstring : Bool)
  | other
deriving DecidableEq, Repr

mutual
inductive PyTree where
  | node (kind : NodeKind) (children : PyForest)
deriving DecidableEq, Repr
inductive PyForest where
  | nil
  | cons (t : PyTree) (rest : PyForest)
deriving DecidableEq, Repr
end

namespace NodeKind

/-- `isinstance(node, (ast.If, ast.For, ast.While, ast.Try, ast.With))`. -/
def is_decision : NodeKind → Bool
  | .if_node | .for_node | .while_node | .try_node | .with_node => true
  | _ => false

/-- `isinstance(node, ast.FunctionDef)`. -/
def is_function_node : NodeKind → Bool
  | .function_node _ _ => true
  | _ => false

/-- `isinstance(node, ast.ClassDef)`. -/
def is_class_node : NodeKind → Bool
  | .class_node _ _ => true
  | _ => false

end NodeKind

namespace ASTAnalyzer

/-- The mutable `complexity` dict threaded through `visit_node`. -/
abbrev CState := CMetrics

/-- The per-node update performed by `visit_node` before recursing:
record the depth in `max_nesting` and bump the three counters. -/
def visit_update (k : NodeKind) (depth : Nat) (s : CState) : CState :=
  { cyclomatic := s.cyclomatic + (if k.is_decision then 1 else 0),
    max_nesting := max s.max_nesting depth,
    function_count := s.function_count + (if k.is_function_node then 1 else 0),
    class_count := s.class_count + (if k.is_class_node then 1 else 0) }

mutual
/-- `visit_node(node, depth)` of `_calculate_complexity`, with the state
passed explicitly. -/
def visit_node : PyTree → Nat → CState → CState
  | .node k ch, depth, s => visit_forest ch (depth + 1) (visit_update k depth s)
/-- The `for child in ast.iter_child_nodes(node)` loop. -/
def visit_forest : PyForest → Nat → CState → CState
  | .nil, _, s => s
  | .cons t rest, depth, s => visit_forest rest depth (visit_node t depth s)
end

/-- `ASTAnalyzer._calculate_complexity`: start from the base metrics and
visit the root at depth 0. -/
def calculate_complexity (t : PyTree) : CMetrics :=
  visit_node t 0 ⟨1, 0, 0, 0⟩

mutual
/-- Specification-side count of decision nodes in a tree. -/
def decision_count : PyTree → Nat
  | .node k ch => (if k.is_decision then 1 else 0) + decision_count_forest ch
def decision_count_forest : PyForest → Nat
  | .nil => 0
  | .cons t rest => decision_count t + decision_count_forest rest
end

mutual
/-- Specification-side maximum node depth, the root at depth 0. -/
def max_depth : PyTree → Nat
  | .node _ ch => max_depth_forest ch
/-- Maximum over a forest of `1 +` each tree's own maximum depth
(children of the current node sit one level deeper); 0 when empty. -/
def max_depth_forest : PyForest → Nat
  | .nil => 0
  | .cons t rest => max (max_depth t + 1) (max_depth_forest rest)
end

mutual
/-- Specification-side count of `FunctionDef` nodes. -/
def function_node_count : PyTree → Nat
  | .node k ch => (if k.is_function_node then 1 else 0) + function_node_count_forest ch
def function_node_count_forest : PyForest → Nat
  | .nil => 0
  | .cons t rest => function_node_count t + function_node_count_forest rest
end

mutual
/-- Specification-side count of `ClassDef` nodes. -/
def class_node_count : PyTree → Nat
  | .node k ch => (if k.is_class_node then 1 else 0) + class_node_count_forest ch
def class_node_count_forest : PyForest → Nat
  | .nil => 0
  | .cons t rest => class_node_count t + class_node_count_forest rest
end

mutual
/-- Names of `FunctionDef` nodes in the tree (the membership facts used by
the consumers are order-independent; the source collects them with the
breadth-first `ast.walk`). -/
def function_names : PyTree → List String
  | .node (.function_node n _) ch => n :: function_names_forest ch
  | .node _ ch => function_names_forest ch
def function_names_forest : PyForest → List String
  | .nil => []
  | .cons t rest => function_names t ++ function_names_forest rest
end

mutual
/-- Count of `FunctionDef` nodes whose `ast.get_docstring` is non-None. -/
def documented_function_count : PyTree → Nat
  | .node k ch =>
    (match k with | .function_node _ d => if d then 1 else 0 | _ => 0) +
      documented_function_count_forest ch
def documented_function_count_forest : PyForest → Nat
  | .nil => 0
  | .cons t rest =>
    documented_function_count t + documented_function_count_forest rest
end

mutual
/-- Count of `ClassDef` nodes whose `ast.get_docstring` is non-None. -/
def documented_class_count : PyTree → Nat
  | .node k ch =>
    (match k with | .class_node _ d => if d then 1 else 0 | _ => 0) +
      documented_class_count_forest ch
def documented_class_count_forest : PyForest → Nat
  | .nil => 0
  | .cons t rest =>
    documented_class_count t + documented_class_count_forest rest
end

/-- Outcome of the external CPython `ast.parse` call, which this
development treats as an oracle: success with the resulting tree, a
`SyntaxError` carrying `e.lineno` and `str(e)`, or any other exception
with its type name and message. -/
inductive ParseOutcome where
  | ok (tree : PyTree)
  | syn_err (line : Option Nat) (msg : String)
  | other_err (etype : String) (msg : String)

/-- The dict returned by `ASTAnalyzer.parse` (the `functions`/`classes`/
`imports` inventories are kept only as the facts its consumers read:
function names and the doc-coverage counts derived from the tree). -/
structure ParseResult where
  valid : Bool
  language : String
  error : Option String := none
  error_type : Option String := none
  line : Option Nat := none
  tree : Option PyTree := none
  complexity : Option CMetrics := none
deriving Repr

/-- `ASTAnalyzer.parse(code, language)` with the CPython parser as an
oracle parameter.  A total function: every branch of the source returns a
dict, exceptions from the parse are caught by the two handlers. -/
def parse (oracle : Str → ParseOutcome) (code : Str) (language : String) :
    ParseResult :=
  if (PyStr.lower language.toList) ≠ "python".toList then
    { valid := false,
      error := some ("AST analysis not yet supported for " ++ language),
      language := language }
  else
    match oracle code with
    | .ok t =>
      { valid := true, language := language, tree := some t,
        complexity := some (calculate_complexity t) }
    | .syn_err ln msg =>
      { valid := false, error := some msg, error_type := some "SyntaxError",
        line := ln, language := language }
    | .other_err ty msg =>
      { valid := false, error := some msg, error_type := some ty,
        language := language }

end ASTAnalyzer

/-- The slice of an agent's review-result dict that the orchestrator's
summary reads (issue lists and score keys); keys an agent does not produce
are `none`.  The echo keys the summary never reads (counts, the raw
analysis text, the per-agent `severity` banner) are elided. -/
structure AgentResult where
  issues : List Finding := []
  vulnerabilities : List Finding := []
  syntax_valid : Option Bool := none
  security_score : Option ℚ := none
  performance_score : Option ℚ := none
  style_score : Option ℚ := none
  best_practices_score : Option ℚ := none
  documentation_score : Option ℚ := none
deriving DecidableEq, Repr

namespace SecurityAgent

/-- `SecurityAgent._load_security_patterns`, in dict insertion order. -/
def security_patterns : List (String × List String) :=
  [("hardcoded_secrets",
    ["password", "secret", "api_key", "apikey", "token", "credential",
     "aws_access_key", "private_key", "passwd", "pwd"]),
   ("sql_injection",
    ["execute(", "query(", "sql", "raw_sql", "format(", "%s %"]),
   ("eval_usage",
    ["eval(", "exec(", "__import__", "compile("]),
   ("insecure_random",
    ["random.", "randint", "choice("]),
   ("path_traversal",
    ["../", "..\\", "open(", "file(", "read("])]

/-- `SecurityAgent._get_pattern_severity`. -/
def get_pattern_severity (pattern_type : String) : String :=
  if pattern_type = "hardcoded_secrets" then "critical"
  else if pattern_type = "eval_usage" then "critical"
  else if pattern_type = "sql_injection" then "high"
  else if pattern_type = "insecure_random" then "medium"
  else if pattern_type = "path_traversal" then "high"
  else "medium"

/-- The line numbers (1-based) whose lowered text contains the lowered
pattern — the `matching_lines` comprehension of
`_check_security_patterns`. -/
def matching_lines (code : Str) (pattern : String) : List Nat :=
  (PyStr.split_char '\n' code).enum.filterMap fun il =>
    if PyStr.contains (PyStr.lower pattern.toList) (PyStr.lower il.2) then
      some (il.1 + 1)
    else none

/-- `SecurityAgent._check_security_patterns` (the `language` argument is
unused by the source body). -/
def check_security_patterns (code : Str) : List PatternMatch :=
  security_patterns.foldl
    (fun found tp =>
      found ++ tp.2.filterMap (fun pattern =>
        if PyStr.contains (PyStr.lower pattern.toList) (PyStr.lower code) then
          some { ptype := tp.1, pattern := pattern,
                 lineNums := (matching_lines code pattern).take 5,
                 severity := get_pattern_severity tp.1 }
        else none))
    []

/-- The vulnerability dict built from one pattern match at the top of
`_extract_vulnerabilities`. -/
def pattern_vuln (m : PatternMatch) : Finding :=
  { ftype := m.ptype, severity := some m.severity,
    message := ("Security pattern detected: " ++ m.pattern).toList,
    lineList := m.lineNums, category := some "security_pattern" }

/-- The trigger keywords of the security verdict scan. -/
def trigger_keywords : List String :=
  ["vulnerability", "security", "risk", "insecure"]

/-- Severity derived from a (lowered) trigger line. -/
def severity_from_line (line_lower : Str) : String :=
  if PyStr.contains "critical".toList line_lower then "critical"
  else if PyStr.contains "high".toList line_lower then "high"
  else if PyStr.contains "low".toList line_lower then "low"
  else "medium"

/-- One iteration of the `for line in lines` loop of
`_extract_vulnerabilities`: the accumulated flushed findings plus the
current open finding (`current_vuln`). -/
def verdict_step (acc : List Finding × Option Finding) (line : Str) :
    List Finding × Option Finding :=
  let line_lower := PyStr.lower line
  if trigger_keywords.any (fun k => PyStr.contains k.toList line_lower) then
    let flushed := match acc.2 with
      | some v => acc.1 ++ [v]
      | none => acc.1
    (flushed,
     some { ftype := "security_issue",
            severity := some (severity_from_line line_lower),
            message := PyStr.strip line, category := some "security" })
  else
    match acc.2 with
    | none => acc
    | some v =>
      let v :=
        if PyStr.contains "line".toList line_lower then
          match PyStr.find_line_num line_lower with
          | some n => { v with line := some n }
          | none => v
        else v
      (acc.1, some { v with message := v.message ++ (' ' :: PyStr.strip line) })

/-- The LLM-response half of `_extract_vulnerabilities`: run the line
state machine and flush the pending finding at end of input. -/
def parse_verdict (analysis_text : Str) : List Finding :=
  let r := (PyStr.split_char '\n' analysis_text).foldl verdict_step ([], none)
  match r.2 with
  | some v => r.1 ++ [v]
  | none => r.1

/-- `SecurityAgent._extract_vulnerabilities`: the critical/high pattern
matches, then the findings parsed from the analysis text. -/
def extract_vulnerabilities (analysis_text : Str)
    (pattern_matches : List PatternMatch) : List Finding :=
  (pattern_matches.filterMap fun m =>
    if m.severity = "critical" || m.severity = "high" then
      some (pattern_vuln m)
    else none)
  ++ parse_verdict analysis_text

/-- `SecurityAgent._calculate_security_score`. -/
def calculate_security_score (vulnerabilities : List Finding) : ℚ :=
  if vulnerabilities.isEmpty then 10
  else
    max 0 (vulnerabilities.foldl
      (fun score v =>
        let severity := v.severity.getD "medium"
        if severity = "critical" then score - 3
        else if severity = "high" then score - 2
        else if severity = "medium" then score - 1
        else score - (1 / 2))
      10)

/-- `SecurityAgent.review` with the LLM analysis text (`_invoke`'s result)
as a parameter. -/
def review (code verdict : Str) : AgentResult :=
  let pattern_matches := check_security_patterns code
  let vulnerabilities := extract_vulnerabilities verdict pattern_matches
  { vulnerabilities := vulnerabilities,
    security_score := some (calculate_security_score vulnerabilities) }

end SecurityAgent

namespace StyleAgent

/-- The style issues `_check_style_patterns` emits for one line
(1-based index `i`). -/
def line_style_issues (language : String) (i : Nat) (line : Str) :
    List Finding :=
  let stripped := PyStr.strip line
  if stripped.isEmpty || ['#'].isPrefixOf stripped then []
  else
    (if line.length > 100 then
       [{ ftype := "line_length", severity := some "minor", line := some i,
          message := ("Line " ++ toString i ++ " exceeds 100 characters (" ++
            toString line.length ++ " chars)").toList }]
     else [])
    ++
    (if PyStr.lower language.toList = "python".toList then
       (if PyStr.contains "\t".toList line &&
           PyStr.contains "    ".toList line then
          [{ ftype := "mixed_indentation", severity := some "major",
             line := some i,
             message := "Mixed tabs and spaces detected".toList }]
        else [])
       ++
       (if PyStr.contains "def ".toList stripped then
          let func_name := PyStr.strip
            (((PyStr.split_char '('
                ((PyStr.split_seq "def ".toList stripped).getD 1 [])).getD 0 []))
          match func_name with
          | [] => []
          | c :: _ =>
            if !c.isLower && !(func_name.contains '_') then
              [{ ftype := "naming_convention", severity := some "minor",
                 line := some i,
                 message := ("Function \x27".toList ++ func_name ++
                   "\x27 should use snake_case".toList) }]
            else []
        else [])
     else [])

/-- `StyleAgent._check_style_patterns`. -/
def check_style_patterns (code : Str) (language : String) : List Finding :=
  (PyStr.split_char '\n' code).enum.foldl
    (fun issues il => issues ++ line_style_issues language (il.1 + 1) il.2) []

/-- The trigger keywords of the style verdict scan. -/
def trigger_keywords : List String :=
  ["style", "naming", "format", "convention", "pep"]

/-- Severity derived from a (lowered) style trigger line. -/
def severity_from_line (line_lower : Str) : String :=
  if PyStr.contains "major".toList line_lower ||
     PyStr.contains "critical".toList line_lower then "major"
  else "minor"

/-- One iteration of the verdict loop of `_extract_style_issues`. -/
def verdict_step (acc : List Finding × Option Finding) (line : Str) :
    List Finding × Option Finding :=
  let line_lower := PyStr.lower line
  if trigger_keywords.any (fun k => PyStr.contains k.toList line_lower) then
    let flushed := match acc.2 with
      | some v => acc.1 ++ [v]
      | none => acc.1
    (flushed,
     some { ftype := "style_issue",
            severity := some (severity_from_line line_lower),
            message := PyStr.strip line, category := some "style" })
  else
    match acc.2 with
    | none => acc
    | some v =>
      let v :=
        if PyStr.contains "line".toList line_lower then
          match PyStr.find_line_num line_lower with
          | some n => { v with line := some n }
          | none => v
        else v
      (acc.1, some { v with message := v.message ++ (' ' :: PyStr.strip line) })

/-- The LLM-response half of `_extract_style_issues`. -/
def parse_verdict (analysis_text : Str) : List Finding :=
  let r := (PyStr.split_char '\n' analysis_text).foldl verdict_step ([], none)
  match r.2 with
  | some v => r.1 ++ [v]
  | none => r.1

/-- `StyleAgent._extract_style_issues`: the heuristic pattern issues
(`pattern_issues.copy()`), then the parsed verdict findings. -/
def extract_style_issues (analysis_text : Str)
    (pattern_issues : List Finding) : List Finding :=
  pattern_issues ++ parse_verdict analysis_text

/-- `StyleAgent._calculate_style_score`. -/
def calculate_style_score (issues : List Finding) : ℚ :=
  if issues.isEmpty then 10
  else
    max 0 (issues.foldl
      (fun score issue =>
        let severity := issue.severity.getD "minor"
        if severity = "major" then score - 1 else score - (1 / 2))
      10)

/-- `StyleAgent.review` with the LLM analysis text as a parameter. -/
def review (code verdict : Str) (language : String) : AgentResult :=
  let style_issues := check_style_patterns code language
  let issues := extract_style_issues verdict style_issues
  { issues := issues, style_score := some (calculate_style_score issues) }

end StyleAgent

namespace PerformanceAgent

/-- `PerformanceAgent._identify_performance_patterns`: the nesting check
(`complexity_metrics.get("max_nesting", 0)`, the empty dict modelled as
`none`), then the per-line scans. -/
def identify_performance_patterns (code : Str)
    (complexity_metrics : Option CMetrics) : List Finding :=
  let nesting_level := (complexity_metrics.map CMetrics.max_nesting).getD 0
  (if nesting_level > 3 then
     [{ ftype := "high_nesting", impact := some "high",
        message := ("High nesting level detected: " ++
          toString nesting_level).toList,
        suggestion := some "Consider refactoring to reduce nesting" }]
   else [])
  ++
  (PyStr.split_char '\n' code).enum.foldl
    (fun issues il =>
      let i := il.1 + 1
      let line_lower := PyStr.lower il.2
      (issues ++
        (if (["in [", "in list", ".find("].any fun p =>
              PyStr.contains p.toList line_lower) &&
            (PyStr.contains "for".toList line_lower ||
             PyStr.contains "if".toList line_lower) then
           [{ ftype := "inefficient_search", impact := some "medium",
              line := some i,
              message := "Potentially inefficient search operation".toList,
              suggestion :=
                some "Consider using sets or dictionaries for O(1) lookup" }]
         else []))
      ++
      (if PyStr.contains "+=".toList il.2 &&
          PyStr.contains "str".toList line_lower then
         [{ ftype := "string_concat", impact := some "low", line := some i,
            message := "String concatenation in loop".toList,
            suggestion :=
              some "Consider using join() or list comprehension" }]
       else []))
    []

/-- The trigger keywords of the performance verdict scan. -/
def trigger_keywords : List String :=
  ["performance", "bottleneck", "slow", "inefficient", "optimization"]

/-- Impact level derived from a (lowered) performance trigger line. -/
def impact_from_line (line_lower : Str) : String :=
  if PyStr.contains "high".toList line_lower ||
     PyStr.contains "critical".toList line_lower then "high"
  else if PyStr.contains "low".toList line_lower ||
          PyStr.contains "minor".toList line_lower then "low"
  else "medium"

/-- One iteration of the verdict loop of `_extract_performance_issues`.
Parsed performance findings carry an `impact` key, not `severity`. -/
def verdict_step (acc : List Finding × Option Finding) (line : Str) :
    List Finding × Option Finding :=
  let line_lower := PyStr.lower line
  if trigger_keywords.any (fun k => PyStr.contains k.toList line_lower) then
    let flushed := match acc.2 with
      | some v => acc.1 ++ [v]
      | none => acc.1
    (flushed,
     some { ftype := "performance_issue",
            impact := some (impact_from_line line_lower),
            message := PyStr.strip line, category := some "performance" })
  else
    match acc.2 with
    | none => acc
    | some v =>
      let v :=
        if PyStr.contains "line".toList line_lower then
          match PyStr.find_line_num line_lower with
          | some n => { v with line := some n }
          | none => v
        else v
      (acc.1, some { v with message := v.message ++ (' ' :: PyStr.strip line) })

/-- The LLM-response half of `_extract_performance_issues`. -/
def parse_verdict (analysis_text : Str) : List Finding :=
  let r := (PyStr.split_char '\n' analysis_text).foldl verdict_step ([], none)
  match r.2 with
  | some v => r.1 ++ [v]
  | none => r.1

/-- `PerformanceAgent._extract_performance_issues`. -/
def extract_performance_issues (analysis_text : Str)
    (pattern_issues : List Finding) : List Finding :=
  pattern_issues ++ parse_verdict analysis_text

/-- `PerformanceAgent._calculate_performance_score`: penalties per issue
impact, then complexity deductions from the metrics dict
(`.get("cyclomatic", 1)` / `.get("max_nesting", 0)`). -/
def calculate_performance_score (issues : List Finding)
    (complexity_metrics : Option CMetrics) : ℚ :=
  let base := issues.foldl
    (fun score issue =>
      let impact := issue.impact.getD "medium"
      if impact = "high" then score - 2
      else if impact = "medium" then score - 1
      else score - (1 / 2))
    10
  let cyclomatic := (complexity_metrics.map CMetrics.cyclomatic).getD 1
  let s1 := if cyclomatic > 20 then base - 2
            else if cyclomatic > 10 then base - 1
            else base
  let nesting := (complexity_metrics.map CMetrics.max_nesting).getD 0
  let s2 := if nesting > 4 then s1 - 3 / 2
            else if nesting > 3 then s1 - 1 / 2
            else s1
  max 0 s2

/-- `PerformanceAgent.review` with the LLM analysis text and the parsed
complexity metrics (`{}` for non-Python or invalid source) as
parameters. -/
def review (code verdict : Str) (complexity_metrics : Option CMetrics) :
    AgentResult :=
  let performance_issues := identify_performance_patterns code complexity_metrics
  let issues := extract_performance_issues verdict performance_issues
  { issues := issues,
    performance_score :=
      some (calculate_performance_score issues complexity_metrics) }

end PerformanceAgent

namespace BestPracticesAgent

/-- `BestPracticesAgent._identify_anti_patterns`.  The `function_bodies`
dict of the source starts empty and is never written to, so the
duplication branch tests membership in a dict that stays empty; the fold
mirrors that loop with the never-extended `seen` component. -/
def identify_anti_patterns (code : Str)
    (ast_result : Option ASTAnalyzer.ParseResult) : List Finding :=
  let dup : List Finding :=
    match ast_result with
    | none => []
    | some r =>
      if r.valid then
        let functions : List String :=
          match r.tree with
          | some t => ASTAnalyzer.function_names t
          | none => []
        (functions.foldl
          (fun (st : List Finding × List String) func_name =>
            if st.2.contains func_name then
              (st.1 ++
                [{ ftype := "potential_duplication",
                   message := ("Potential code duplication in function \x27"
                     ++ func_name ++ "\x27").toList,
                   category := some "DRY violation" }], st.2)
            else st)
          ([], [])).1
      else []
  let god : List Finding :=
    match ast_result with
    | none => []
    | some r =>
      if r.valid &&
         ((r.complexity.map CMetrics.cyclomatic).getD 0 > 15) then
        [{ ftype := "high_complexity",
           message :=
             "High cyclomatic complexity suggests potential god function".toList,
           category := some "Single Responsibility Principle" }]
      else []
  let magic : List Finding :=
    (PyStr.split_char '\n' code).enum.foldl
      (fun acc il =>
        if PyStr.count_standalone_numbers il.2 > 2 && il.2.contains '=' then
          acc ++ [{ ftype := "magic_numbers", line := some (il.1 + 1),
                    message := "Potential magic numbers detected".toList,
                    category := some "Code clarity" }]
        else acc)
      []
  dup ++ god ++ magic

/-- The trigger keywords of the best-practices verdict scan. -/
def trigger_keywords : List String :=
  ["anti-pattern", "violation", "principle", "best practice",
   "design", "architecture", "solid", "dry"]

/-- One iteration of the verdict loop of
`_extract_best_practices_issues`: parsed findings always carry severity
`medium`; continuation lines may set the line number (overwriting) and
may switch the category. -/
def verdict_step (acc : List Finding × Option Finding) (line : Str) :
    List Finding × Option Finding :=
  let line_lower := PyStr.lower line
  if trigger_keywords.any (fun k => PyStr.contains k.toList line_lower) then
    let flushed := match acc.2 with
      | some v => acc.1 ++ [v]
      | none => acc.1
    (flushed,
     some { ftype := "best_practice_issue",
            category := some "best_practices",
            message := PyStr.strip line, severity := some "medium" })
  else
    match acc.2 with
    | none => acc
    | some v =>
      let v :=
        if PyStr.contains "line".toList line_lower then
          match PyStr.find_line_num line_lower with
          | some n => { v with line := some n }
          | none => v
        else v
      let v :=
        if PyStr.contains "solid".toList line_lower then
          { v with category := some "SOLID principles" }
        else if PyStr.contains "dry".toList line_lower then
          { v with category := some "DRY violation" }
        else v
      (acc.1, some { v with message := v.message ++ (' ' :: PyStr.strip line) })

/-- The LLM-response half of `_extract_best_practices_issues`. -/
def parse_verdict (analysis_text : Str) : List Finding :=
  let r := (PyStr.split_char '\n' analysis_text).foldl verdict_step ([], none)
  match r.2 with
  | some v => r.1 ++ [v]
  | none => r.1

/-- `BestPracticesAgent._extract_best_practices_issues`: each anti-pattern
is converted to an issue with severity `medium` (its `line` key is read
with `.get`), then the parsed verdict findings follow. -/
def extract_best_practices_issues (analysis_text : Str)
    (anti_patterns : List Finding) : List Finding :=
  (anti_patterns.map fun p =>
    { ftype := p.ftype, category := some (p.category.getD "best_practices"),
      message := p.message, line := p.line, severity := some "medium" })
  ++ parse_verdict analysis_text

/-- `BestPracticesAgent._calculate_best_practices_score` (note: no
`critical` case — any severity other than `high`/`medium` deducts 0.5). -/
def calculate_best_practices_score (issues : List Finding) : ℚ :=
  if issues.isEmpty then 10
  else
    max 0 (issues.foldl
      (fun score issue =>
        let severity := issue.severity.getD "medium"
        if severity = "high" then score - 2
        else if severity = "medium" then score - 1
        else score - (1 / 2))
      10)

/-- `BestPracticesAgent.review` with the LLM analysis text and the parse
result (`{}` for non-Python modelled as `none`) as parameters. -/
def review (code verdict : Str)
    (ast_result : Option ASTAnalyzer.ParseResult) : AgentResult :=
  let anti_patterns := identify_anti_patterns code ast_result
  let issues := extract_best_practices_issues verdict anti_patterns
  { issues := issues,
    best_practices_score := some (calculate_best_practices_score issues) }

end BestPracticesAgent

/-- The dict built by `DocumentationAgent._analyze_docstrings`;
`coverage_percentage` is `none` on the early-return paths that leave the
key unset. -/
structure DocStats where
  functions_with_docstrings : Nat := 0
  functions_without_docstrings : Nat := 0
  classes_with_docstrings : Nat := 0
  classes_without_docstrings : Nat := 0
  total_functions : Nat := 0
  total_classes : Nat := 0
  coverage_percentage : Option ℚ := none
deriving DecidableEq, Repr

namespace DocumentationAgent

/-- `DocumentationAgent._analyze_docstrings` on a parse result (the walk
only counts nodes, so tree order is immaterial). -/
def analyze_docstrings (r : ASTAnalyzer.ParseResult) : DocStats :=
  if !r.valid then {}
  else
    match r.tree with
    | none => {}
    | some t =>
      let tf := ASTAnalyzer.function_node_count t
      let fw := ASTAnalyzer.documented_function_count t
      let tc := ASTAnalyzer.class_node_count t
      let cw := ASTAnalyzer.documented_class_count t
      { functions_with_docstrings := fw,
        functions_without_docstrings := tf - fw,
        classes_with_docstrings := cw,
        classes_without_docstrings := tc - cw,
        total_functions := tf, total_classes := tc,
        coverage_percentage :=
          some (if tf + tc > 0 then ((fw + cw : ℚ) / (tf + tc)) * 100 else 0) }

/-- The `docstring_stats.get("coverage_percentage", 100.0)` accessor
(`none` is the `{}` dict of a non-Python or unparsed review). -/
def coverage_of (docstring_stats : Option DocStats) : ℚ :=
  match docstring_stats with
  | none => 100
  | some st => st.coverage_percentage.getD 100

/-- `DocumentationAgent._check_documentation_patterns` (the interpolated
percentage of the two coverage messages is elided from the message
text). -/
def check_documentation_patterns (code : Str)
    (docstring_stats : Option DocStats) : List Finding :=
  let coverage := coverage_of docstring_stats
  (if coverage < 50 then
     [{ ftype := "low_docstring_coverage", severity := some "high",
        message := "Low docstring coverage".toList,
        suggestion := some "Add docstrings to functions and classes" }]
   else if coverage < 80 then
     [{ ftype := "moderate_docstring_coverage", severity := some "medium",
        message := "Moderate docstring coverage".toList,
        suggestion := some "Consider adding more docstrings" }]
   else [])
  ++
  (PyStr.split_char '\n' code).enum.foldl
    (fun acc il =>
      let line_lower := PyStr.lower il.2
      if (PyStr.contains "todo".toList line_lower ||
          PyStr.contains "fixme".toList line_lower) &&
         (PyStr.strip il.2).length < 20 then
        acc ++ [{ ftype := "vague_todo", severity := some "low",
                  line := some (il.1 + 1),
                  message := "TODO/FIXME comment lacks detail".toList,
                  suggestion :=
                    some "Add more context to TODO/FIXME comments" }]
      else acc)
    []

/-- The trigger keywords of the documentation verdict scan. -/
def trigger_keywords : List String :=
  ["docstring", "documentation", "comment", "missing", "unclear"]

/-- Severity derived from a (lowered) documentation trigger line. -/
def severity_from_line (line_lower : Str) : String :=
  if PyStr.contains "missing".toList line_lower ||
     PyStr.contains "critical".toList line_lower then "high"
  else if PyStr.contains "minor".toList line_lower ||
          PyStr.contains "suggestion".toList line_lower then "low"
  else "medium"

/-- One iteration of the verdict loop of `_extract_documentation_issues`;
the location attempt also runs when the line mentions `function` or
`class`. -/
def verdict_step (acc : List Finding × Option Finding) (line : Str) :
    List Finding × Option Finding :=
  let line_lower := PyStr.lower line
  if trigger_keywords.any (fun k => PyStr.contains k.toList line_lower) then
    let flushed := match acc.2 with
      | some v => acc.1 ++ [v]
      | none => acc.1
    (flushed,
     some { ftype := "documentation_issue",
            severity := some (severity_from_line line_lower),
            message := PyStr.strip line, category := some "documentation" })
  else
    match acc.2 with
    | none => acc
    | some v =>
      let v :=
        if PyStr.contains "line".toList line_lower ||
           PyStr.contains "function".toList line_lower ||
           PyStr.contains "class".toList line_lower then
          match PyStr.find_line_num line_lower with
          | some n => { v with line := some n }
          | none => v
        else v
      (acc.1, some { v with message := v.message ++ (' ' :: PyStr.strip line) })

/-- The LLM-response half of `_extract_documentation_issues`. -/
def parse_verdict (analysis_text : Str) : List Finding :=
  let r := (PyStr.split_char '\n' analysis_text).foldl verdict_step ([], none)
  match r.2 with
  | some v => r.1 ++ [v]
  | none => r.1

/-- `DocumentationAgent._extract_documentation_issues`. -/
def extract_documentation_issues (analysis_text : Str)
    (pattern_issues : List Finding) : List Finding :=
  pattern_issues ++ parse_verdict analysis_text

/-- `DocumentationAgent._calculate_documentation_score`: per-issue
penalties, then the coverage deduction. -/
def calculate_documentation_score (issues : List Finding)
    (docstring_stats : Option DocStats) : ℚ :=
  let base := issues.foldl
    (fun score issue =>
      let severity := issue.severity.getD "medium"
      if severity = "high" then score - 2
      else if severity = "medium" then score - 1
      else score - (1 / 2))
    10
  let coverage := coverage_of docstring_stats
  let s1 := if coverage < 50 then base - 3
            else if coverage < 80 then base - 3 / 2
            else base
  max 0 s1

/-- `DocumentationAgent.review` with the LLM analysis text and the
docstring stats (`{}` for non-Python or unparsed source modelled as
`none`) as parameters. -/
def review (code verdict : Str) (docstring_stats : Option DocStats) :
    AgentResult :=
  let doc_issues := check_documentation_patterns code docstring_stats
  let issues := extract_documentation_issues verdict doc_issues
  { issues := issues,
    documentation_score :=
      some (calculate_documentation_score issues docstring_stats) }

end DocumentationAgent

namespace SyntaxAnalyzerAgent

/-- The issue-marker keywords of the syntax verdict scan. -/
def trigger_keywords : List String := ["error", "issue", "problem", "warning"]

/-- One iteration of the verdict loop of
`SyntaxAnalyzerAgent._extract_issues`: unlike the other agents the
continuation branch fires when the line mentions `line` or contains a
colon, and does not append to the message. -/
def verdict_step (acc : List Finding × Option Finding) (line : Str) :
    List Finding × Option Finding :=
  let line_lower := PyStr.lower line
  if trigger_keywords.any (fun k => PyStr.contains k.toList line_lower) then
    let flushed := match acc.2 with
      | some v => acc.1 ++ [v]
      | none => acc.1
    (flushed,
     some { ftype := "syntax_issue",
            severity := some (if PyStr.contains "error".toList line_lower
              then "high" else "medium"),
            message := PyStr.strip line, category := some "syntax" })
  else
    match acc.2 with
    | none => acc
    | some v =>
      if PyStr.contains "line".toList line_lower || line.contains ':' then
        match PyStr.find_line_num line_lower with
        | some n => (acc.1, some { v with line := some n })
        | none => acc
      else acc

/-- The LLM-response half of `_extract_issues`. -/
def parse_verdict (analysis_text : Str) : List Finding :=
  let r := (PyStr.split_char '\n' analysis_text).foldl verdict_step ([], none)
  match r.2 with
  | some v => r.1 ++ [v]
  | none => r.1

/-- `SyntaxAnalyzerAgent._extract_issues`: a critical finding when the
AST parse failed (`ast_result` non-empty and invalid), then the parsed
verdict findings. -/
def extract_issues (analysis_text : Str)
    (ast_result : Option ASTAnalyzer.ParseResult) : List Finding :=
  (match ast_result with
   | some r =>
     if !r.valid then
       [{ ftype := "syntax_error", severity := some "critical",
          message := (r.error.getD "Syntax error detected").toList,
          line := r.line, category := some "syntax" }]
     else []
   | none => [])
  ++ parse_verdict analysis_text

/-- `SyntaxAnalyzerAgent.review` with the LLM analysis text and the parse
result (`{}` for non-Python modelled as `none`) as parameters.
`syntax_valid` is `ast_result.get("valid", True) if ast_result else
True`. -/
def review (verdict : Str) (ast_result : Option ASTAnalyzer.ParseResult) :
    AgentResult :=
  { issues := extract_issues verdict ast_result,
    syntax_valid := some (match ast_result with
      | none => true
      | some r => r.valid) }

end SyntaxAnalyzerAgent

namespace Orchestrator

/-- One value of the orchestrator's `agent_results` dict: either the
agent's review dict, or the `{"error": str(e), "skipped": True}` entry
written by the per-agent exception handler. -/
inductive AgentEntry where
  | ok (r : AgentResult)
  | failed (error : String)
deriving DecidableEq, Repr

/-- `agent_result.get("issues", []) or agent_result.get("vulnerabilities",
[])`: Python's `or` falls through to the vulnerabilities when the issues
list is empty or absent. -/
def pick_issues (r : AgentResult) : List Finding :=
  if r.issues.isEmpty then r.vulnerabilities else r.issues

/-- `issue.get("severity", "medium")`. -/
def finding_severity (f : Finding) : String := f.severity.getD "medium"

/-- The `all_issues` list of `_generate_summary`: the issue lists of
non-skipped, non-errored entries in iteration order, each issue tagged
with its agent name. -/
def collected_findings (agent_results : List (String × AgentEntry)) :
    List Finding :=
  agent_results.foldl
    (fun acc e =>
      match e.2 with
      | .ok r => acc ++ (pick_issues r).map (fun f => { f with agent := some e.1 })
      | .failed _ => acc)
    []

/-- The score entries one agent result contributes, in the fixed key
order `_generate_summary` tests (`syntax_valid` maps to 10.0/0.0). -/
def result_scores (r : AgentResult) : List (String × ℚ) :=
  (match r.syntax_valid with
   | some b => [("syntax", if b then (10 : ℚ) else 0)]
   | none => []) ++
  (match r.security_score with
   | some q => [("security", q)] | none => []) ++
  (match r.performance_score with
   | some q => [("performance", q)] | none => []) ++
  (match r.style_score with
   | some q => [("style", q)] | none => []) ++
  (match r.best_practices_score with
   | some q => [("best_practices", q)] | none => []) ++
  (match r.documentation_score with
   | some q => [("documentation", q)] | none => [])

/-- Python dict assignment `scores[key] = value`: replace in place, or
append a fresh key. -/
def upsert (scores : List (String × ℚ)) (k : String) (v : ℚ) :
    List (String × ℚ) :=
  if scores.any (fun kv => kv.1 = k) then
    scores.map (fun kv => if kv.1 = k then (k, v) else kv)
  else scores ++ [(k, v)]

/-- The `scores` dict of `_generate_summary`. -/
def gather_scores (agent_results : List (String × AgentEntry)) :
    List (String × ℚ) :=
  agent_results.foldl
    (fun acc e =>
      match e.2 with
      | .ok r => (result_scores r).foldl (fun a kv => upsert a kv.1 kv.2) acc
      | .failed _ => acc)
    []

/-- The dict returned by `CodeReviewOrchestrator._generate_summary`. -/
structure Summary where
  total_issues : Nat
  critical_issues : Nat
  high_issues : Nat
  medium_issues : Nat
  low_issues : Nat
  scores : List (String × ℚ)
  overall_score : ℚ
  overall_severity : String
  agents_run : Nat
  agents_failed : Nat
deriving DecidableEq, Repr

/-- `CodeReviewOrchestrator._generate_summary`.  `critical_issues` and
`high_issues` are built per collected issue by the `if`/`elif` on its
severity, which is the filter below; `medium_issues`/`low_issues` use
`issue.get("severity")` with no default, so axis-less findings count in
neither. -/
def generate_summary (agent_results : List (String × AgentEntry)) : Summary :=
  let all_issues := collected_findings agent_results
  let critical := all_issues.filter (fun f => finding_severity f == "critical")
  let high := all_issues.filter (fun f => finding_severity f == "high")
  let scores := gather_scores agent_results
  let overall_score : ℚ :=
    if scores.isEmpty then 0 else (scores.map Prod.snd).sum / scores.length
  let overall_severity :=
    if !critical.isEmpty then "critical"
    else if !high.isEmpty then "high"
    else if !all_issues.isEmpty then "medium"
    else "none"
  { total_issues := all_issues.length,
    critical_issues := critical.length,
    high_issues := high.length,
    medium_issues :=
      (all_issues.filter (fun f => f.severity == some "medium")).length,
    low_issues :=
      (all_issues.filter (fun f => f.severity == some "low")).length,
    scores := scores,
    overall_score := overall_score,
    overall_severity := overall_severity,
    agents_run := (agent_results.filter (fun e =>
      match e.2 with | .ok _ => true | .failed _ => false)).length,
    agents_failed := (agent_results.filter (fun e =>
      match e.2 with | .failed _ => true | .ok _ => false)).length }

/-- The `results` dict of `CodeReviewOrchestrator.review` (the metrics and
dependency side-data are opaque blobs from the two helper tools). -/
structure ReviewResult where
  code : Str
  language : String
  metrics : String
  dependencies : String
  agent_results : List (String × AgentEntry)
  summary : Summary

/-- The six dimension names, in the order `review` runs them (also the
default `include_agents` list). -/
def all_agent_names : List String :=
  ["syntax", "security", "performance", "style", "best_practices",
   "documentation"]

/-- `CodeReviewOrchestrator.review`.  The two metric tools and the six
agent invocations are oracle parameters: `run_agent name` models
`self.<name>_agent.review(code, language)` and its `Except.error` case the
exception caught by that agent's `try`/`except`.  The guard for each
dimension is `not include_agents or name in include_agents`, evaluated
after `include_agents` is defaulted to all six when `None`. -/
def review (calc_metrics check_deps : Str → String → String)
    (run_agent : String → Except String AgentResult)
    (code : Str) (language : String)
    (include_agents : Option (List String)) :
    Except String ReviewResult :=
  if code.isEmpty || PyStr.is_blank code then .error "Code cannot be empty"
  else
    let inc := include_agents.getD all_agent_names
    let entries := all_agent_names.filterMap (fun name =>
      if inc.isEmpty || inc.contains name then
        some (name, match run_agent name with
          | .ok r => AgentEntry.ok r
          | .error e => AgentEntry.failed e)
      else none)
    .ok { code := code, language := language,
          metrics := calc_metrics code language,
          dependencies := check_deps code language,
          agent_results := entries,
          summary := generate_summary entries }

end Orchestrator

/-- Proof helper: the maximum over a forest of `d +` each tree's own
maximum depth, where the forest's roots sit at depth `d` (0 for the empty
forest). -/
def ASTAnalyzer.forest_peak (d : Nat) : PyForest → Nat
  | .nil => 0
  | .cons t rest =>
    max (d + ASTAnalyzer.max_depth t) (ASTAnalyzer.forest_peak d rest)

/-! ## Concrete review inputs used by the closed theorems

`ce_module`/`ce_code` model the Python source

```text
def f():
    """Doc."""
    pass
```

followed by `n` copies of a bare `try:/pass/except:/pass` block.  Each
`try` block parses to `ast.Try` with children `[Pass, ExceptHandler]` and
`ExceptHandler` child `[Pass]`; the function parses to `ast.FunctionDef`
with children `[arguments, Expr, Pass]` and `Expr` child `[Constant]`
(the docstring).  Hence cyclomatic `1 + n`, maximum node depth 3, one
documented function, no classes, and no heuristic pattern of any
dimension matches the text. -/

def doc_fn_tree : PyTree :=
  .node (.function_node "f" true)
    (.cons (.node .other .nil)
      (.cons (.node .other (.cons (.node .other .nil) .nil))
        (.cons (.node .other .nil) .nil)))

def try_block_tree : PyTree :=
  .node .try_node
    (.cons (.node .other .nil)
      (.cons (.node .other (.cons (.node .other .nil) .nil)) .nil))

def rep_forest : Nat → PyTree → PyForest
  | 0, _ => .nil
  | n + 1, t => .cons t (rep_forest n t)

def ce_module (n : Nat) : PyTree :=
  .node .other (.cons doc_fn_tree (rep_forest n try_block_tree))

def try_text : String := "try:\n    pass\nexcept:\n    pass"

def ce_code (n : Nat) : Str :=
  ("def f():\n    \"\"\"Doc.\"\"\"\n    pass" ++
    (String.join (List.replicate n ("\n" ++ try_text)))).toList

def ce_parse_result (n : Nat) : ASTAnalyzer.ParseResult :=
  { valid := true, language := "python", tree := some (ce_module n),
    complexity := some (ASTAnalyzer.calculate_complexity (ce_module n)) }

/-- The six orchestrator entries produced when every agent runs on
`ce_code n` and every Reviewer verdict is the empty string. -/
def ce_entries (n : Nat) : List (String × Orchestrator.AgentEntry) :=
  [("syntax", .ok (SyntaxAnalyzerAgent.review [] (some (ce_parse_result n)))),
   ("security", .ok (SecurityAgent.review (ce_code n) [])),
   ("performance", .ok (PerformanceAgent.review (ce_code n) []
      (some (ASTAnalyzer.calculate_complexity (ce_module n))))),
   ("style", .ok (StyleAgent.review (ce_code n) [] "python")),
   ("best_practices", .ok (BestPracticesAgent.review (ce_code n) []
      (some (ce_parse_result n)))),
   ("documentation", .ok (DocumentationAgent.review (ce_code n) []
      (some (DocumentationAgent.analyze_docstrings (ce_parse_result n)))))]

/-- Source text whose sixth line is `PASSWORD = "admin123"` while five
earlier lines already contain the pattern `password`. -/
def c6_code : Str :=
  "password\npassword\npassword\npassword\npassword\nPASSWORD = \"admin123\"".toList

/-! ## Proof development -/

namespace ASTAnalyzer

theorem forest_peak_succ : ∀ (f : PyForest) (d : Nat),
    max d (forest_peak (d + 1) f) = d + max_depth_forest f
  | .nil, d => by simp [forest_peak, max_depth_forest]
  | .cons t rest, d => by
    have ih := forest_peak_succ rest d
    simp only [forest_peak, max_depth_forest]
    omega

mutual
theorem visit_node_eq : ∀ (t : PyTree) (d : Nat) (s : CState),
    visit_node t d s =
      { cyclomatic := s.cyclomatic + decision_count t,
        max_nesting := max s.max_nesting (d + max_depth t),
        function_count := s.function_count + function_node_count t,
        class_count := s.class_count + class_node_count t }
  | .node k ch, d, s => by
    rw [visit_node, visit_forest_eq ch (d + 1) (visit_update k d s)]
    simp only [visit_update, decision_count, max_depth, function_node_count,
      class_node_count, CMetrics.mk.injEq]
    refine ⟨by omega, ?_, by omega, by omega⟩
    rw [max_assoc, forest_peak_succ]

theorem visit_forest_eq : ∀ (f : PyForest) (d : Nat) (s : CState),
    visit_forest f d s =
      { cyclomatic := s.cyclomatic + decision_count_forest f,
        max_nesting := max s.max_nesting (forest_peak d f),
        function_count := s.function_count + function_node_count_forest f,
        class_count := s.class_count + class_node_count_forest f }
  | .nil, d, s => by
    simp [visit_forest, forest_peak, decision_count_forest,
      function_node_count_forest, class_node_count_forest]
  | .cons t rest, d, s => by
    rw [visit_forest, visit_node_eq t d s, visit_forest_eq rest d _]
    simp only [decision_count_forest, forest_peak, function_node_count_forest,
      class_node_count_forest, CMetrics.mk.injEq]
    refine ⟨by omega, ?_, by omega, by omega⟩
    rw [max_assoc]
end

end ASTAnalyzer

/-- C8: for every syntax tree the complexity profile has `cyclomatic` equal
to one plus the number of visited decision nodes (conditional, for/while
loop, exception-handling, resource-scope), `max_nesting` equal to the
maximum traversal depth over all structural nodes (root at depth 0, each
child one deeper), the computation is deterministic, and `cyclomatic ≥ 1`
always holds. -/
theorem complexity_profile_spec (t : PyTree) :
    (ASTAnalyzer.calculate_complexity t).cyclomatic =
      1 + ASTAnalyzer.decision_count t ∧
    (ASTAnalyzer.calculate_complexity t).max_nesting =
      ASTAnalyzer.max_depth t ∧
    ASTAnalyzer.calculate_complexity t = ASTAnalyzer.calculate_complexity t ∧
    1 ≤ (ASTAnalyzer.calculate_complexity t).cyclomatic := by
  rw [ASTAnalyzer.calculate_complexity, ASTAnalyzer.visit_node_eq]
  refine ⟨by simp, by simp, rfl, by simp⟩

/-- Proof helper: a fold whose step never increases the accumulator stays
at or below its starting value. -/
theorem foldl_le_init {α : Type} (g : ℚ → α → ℚ) (hg : ∀ s f, g s f ≤ s) :
    ∀ (l : List α) (s : ℚ), l.foldl g s ≤ s
  | [], s => le_refl s
  | f :: rest, s => le_trans (foldl_le_init g hg rest (g s f)) (hg s f)

/-- C9: every dimension score function starts at 10.0, only subtracts
penalties, and floors at 0.0, so for every list of findings (any length,
any mix of severities/impacts) and any complexity metrics/docstring stats
the returned score lies in `[0, 10]`. -/
theorem dimension_scores_bounded :
    (∀ l, 0 ≤ SecurityAgent.calculate_security_score l ∧
      SecurityAgent.calculate_security_score l ≤ 10) ∧
    (∀ l m, 0 ≤ PerformanceAgent.calculate_performance_score l m ∧
      PerformanceAgent.calculate_performance_score l m ≤ 10) ∧
    (∀ l, 0 ≤ StyleAgent.calculate_style_score l ∧
      StyleAgent.calculate_style_score l ≤ 10) ∧
    (∀ l, 0 ≤ BestPracticesAgent.calculate_best_practices_score l ∧
      BestPracticesAgent.calculate_best_practices_score l ≤ 10) ∧
    (∀ l st, 0 ≤ DocumentationAgent.calculate_documentation_score l st ∧
      DocumentationAgent.calculate_documentation_score l st ≤ 10) := by
  have hsec : ∀ (l : List Finding) (s : ℚ),
      l.foldl (fun score v =>
        let severity := v.severity.getD "medium"
        if severity = "critical" then score - 3
        else if severity = "high" then score - 2
        else if severity = "medium" then score - 1
        else score - (1 / 2)) s ≤ s := by
    refine foldl_le_init _ (fun s f => ?_)
    dsimp only
    split_ifs <;> linarith
  have himp : ∀ (l : List Finding) (s : ℚ),
      l.foldl (fun score issue =>
        let impact := issue.impact.getD "medium"
        if impact = "high" then score - 2
        else if impact = "medium" then score - 1
        else score - (1 / 2)) s ≤ s := by
    refine foldl_le_init _ (fun s f => ?_)
    dsimp only
    split_ifs <;> linarith
  have hsty : ∀ (l : List Finding) (s : ℚ),
      l.foldl (fun score issue =>
        let severity := issue.severity.getD "minor"
        if severity = "major" then score - 1 else score - (1 / 2)) s ≤ s := by
    refine foldl_le_init _ (fun s f => ?_)
    dsimp only
    split_ifs <;> linarith
  have hbp : ∀ (l : List Finding) (s : ℚ),
      l.foldl (fun score issue =>
        let severity := issue.severity.getD "medium"
        if severity = "high" then score - 2
        else if severity = "medium" then score - 1
        else score - (1 / 2)) s ≤ s := by
    refine foldl_le_init _ (fun s f => ?_)
    dsimp only
    split_ifs <;> linarith
  refine ⟨fun l => ?_, fun l m => ?_, fun l => ?_, fun l => ?_, fun l st => ?_⟩
  · rw [SecurityAgent.calculate_security_score]
    split_ifs
    · norm_num
    · exact ⟨le_max_left 0 _,
        max_le (by norm_num) ((hsec l 10).trans (by norm_num))⟩
  · rw [PerformanceAgent.calculate_performance_score]
    refine ⟨le_max_left 0 _, max_le (by norm_num) ?_⟩
    have h1 := himp l 10
    split_ifs <;> linarith
  · rw [StyleAgent.calculate_style_score]
    split_ifs
    · norm_num
    · exact ⟨le_max_left 0 _,
        max_le (by norm_num) ((hsty l 10).trans (by norm_num))⟩
  · rw [BestPracticesAgent.calculate_best_practices_score]
    split_ifs
    · norm_num
    · exact ⟨le_max_left 0 _,
        max_le (by norm_num) ((hbp l 10).trans (by norm_num))⟩
  · rw [DocumentationAgent.calculate_documentation_score]
    refine ⟨le_max_left 0 _, max_le (by norm_num) ?_⟩
    have h1 := hbp l 10
    split_ifs <;> linarith

/-- C1: for every code string that is blank (empty or whitespace-only),
`review` fails with "Code cannot be empty" regardless of the metric tools
and agents (none of which is consulted — the result is the same for every
oracle); for every code string with a non-whitespace character the check
does not fire and a report is returned. -/
theorem review_empty_input_check
    (calc_metrics check_deps : Str → String → String)
    (run_agent : String → Except String AgentResult)
    (code : Str) (language : String)
    (include_agents : Option (List String)) :
    (PyStr.is_blank code = true →
      Orchestrator.review calc_metrics check_deps run_agent code language
        include_agents = .error "Code cannot be empty") ∧
    (PyStr.is_blank code = false →
      ∃ r, Orchestrator.review calc_metrics check_deps run_agent code language
        include_agents = .ok r) := by
  constructor
  · intro h
    rw [Orchestrator.review, if_pos (by simp [h])]
  · intro h
    have hne : code.isEmpty = false := by
      cases code with
      | nil => simp [PyStr.is_blank] at h
      | cons c rest => rfl
    exact ⟨_, by rw [Orchestrator.review, if_neg (by simp [h, hne])]⟩

/-- Witness for C1 at the whitespace-only input `"   "` and the
non-blank input `"x = 1"`. -/
theorem review_empty_input_check_witness :
    Orchestrator.review (fun _ _ => "") (fun _ _ => "") (fun _ => .ok {})
      "   ".toList "python" none = .error "Code cannot be empty" ∧
    ∃ r, Orchestrator.review (fun _ _ => "") (fun _ _ => "") (fun _ => .ok {})
      "x = 1".toList "python" none = .ok r :=
  ⟨(review_empty_input_check _ _ _ _ _ _).1 (by decide),
   (review_empty_input_check _ _ _ _ _ _).2 (by decide)⟩

/-- C7: `parse` on any language other than Python (case-insensitively)
returns an invalid result carrying the unsupported-language error, for
every parser oracle (the parser is never consulted, and nothing is
raised); on Python, a parse failure reported by the parser yields an
invalid result with error type `SyntaxError`, the reported failing line
and the parser diagnostic, again without raising. -/
theorem parse_error_handling (oracle : Str → ASTAnalyzer.ParseOutcome)
    (code : Str) (language : String) :
    (PyStr.lower language.toList ≠ "python".toList →
      ASTAnalyzer.parse oracle code language =
        { valid := false,
          error := some ("AST analysis not yet supported for " ++ language),
          language := language }) ∧
    (PyStr.lower language.toList = "python".toList →
      ∀ ln msg, oracle code = .syn_err ln msg →
        ASTAnalyzer.parse oracle code language =
          { valid := false, error := some msg,
            error_type := some "SyntaxError", line := ln,
            language := language }) := by
  constructor
  · intro h
    rw [ASTAnalyzer.parse, if_pos h]
  · intro h ln msg horacle
    rw [ASTAnalyzer.parse, if_neg (fun hn => hn h), horacle]

/-- Witness for C7 at language `"java"` (oracle untouched) and at
language `"Python"` with a parser oracle failing on line 3. -/
theorem parse_error_handling_witness :
    ASTAnalyzer.parse (fun _ => .ok (.node .other .nil)) "x = 1".toList
      "java" =
      { valid := false,
        error := some "AST analysis not yet supported for java",
        language := "java" } ∧
    ASTAnalyzer.parse (fun _ => .syn_err (some 3) "invalid syntax")
      "x +".toList "Python" =
      { valid := false, error := some "invalid syntax",
        error_type := some "SyntaxError", line := some 3,
        language := "Python" } :=
  ⟨(parse_error_handling _ _ "java").1 (by decide),
   (parse_error_handling _ _ "Python").2 (by decide) (some 3)
     "invalid syntax" rfl⟩

/-- C10: `review` with `include_agents = []` behaves exactly like
`include_agents = None` — the falsy-empty-list guard makes every
dimension guard pass, so all six agents are attempted and the report has
an entry for all six dimensions (in particular, not zero dimensions). -/
theorem review_empty_include_list
    (calc_metrics check_deps : Str → String → String)
    (run_agent : String → Except String AgentResult)
    (code : Str) (language : String) :
    Orchestrator.review calc_metrics check_deps run_agent code language
      (some []) =
    Orchestrator.review calc_metrics check_deps run_agent code language
      none ∧
    (PyStr.is_blank code = false →
      (Orchestrator.review calc_metrics check_deps run_agent code language
          (some [])).map (fun r => r.agent_results.map Prod.fst) =
        Except.ok Orchestrator.all_agent_names) := by
  constructor
  · rfl
  · intro h
    have hne : code.isEmpty = false := by
      cases code with
      | nil => simp [PyStr.is_blank] at h
      | cons c rest => rfl
    rw [Orchestrator.review, if_neg (by simp [h, hne])]
    rfl

/-- Witness for C10 at the non-blank input `"x = 1"` with succeeding
agent oracles. -/
theorem review_empty_include_list_witness :
    Orchestrator.review (fun _ _ => "") (fun _ _ => "") (fun _ => .ok {})
      "x = 1".toList "python" (some []) =
    Orchestrator.review (fun _ _ => "") (fun _ _ => "") (fun _ => .ok {})
      "x = 1".toList "python" none ∧
    (Orchestrator.review (fun _ _ => "") (fun _ _ => "") (fun _ => .ok {})
        "x = 1".toList "python" (some [])).map
      (fun r => r.agent_results.map Prod.fst) =
      Except.ok Orchestrator.all_agent_names :=
  ⟨(review_empty_include_list _ _ _ _ _).1,
   (review_empty_include_list _ _ _ _ _).2 (by decide)⟩

namespace PyStr

theorem line_tok_at_prefix (cs : Str) (n : Nat)
    (h : line_tok_at cs = some n) :
    ('l' :: 'i' :: 'n' :: 'e' :: []).isPrefixOf cs = true := by
  by_cases hp : ('l' :: 'i' :: 'n' :: 'e' :: []).isPrefixOf cs = true
  · exact hp
  · rw [line_tok_at, if_neg (by simp [hp])] at h
    exact absurd h (by simp)

theorem find_line_num_contains : ∀ (s : Str) (n : Nat),
    find_line_num s = some n → contains "line".toList s = true
  | [], n, h => by simp [find_line_num] at h
  | c :: rest, n, h => by
    rw [find_line_num] at h
    rw [contains]
    cases htok : line_tok_at (c :: rest) with
    | some m =>
      have := line_tok_at_prefix _ _ htok
      simp [this]
    | none =>
      rw [htok] at h
      have ih := find_line_num_contains rest n h
      rw [ih, Bool.or_true]

theorem contains_iff : ∀ (needle hay : Str),
    contains needle hay = true ↔ needle <:+: hay
  | needle, [] => by
    rw [contains]
    simp [List.isEmpty_iff, List.infix_nil]
  | needle, c :: rest => by
    rw [contains]
    simp only [Bool.or_eq_true, List.isPrefixOf_iff_prefix,
      contains_iff needle rest, List.infix_cons_iff]

theorem split_char_first : ∀ (s : Str) (sep : Char),
    ∃ h t, split_char sep s = h :: t ∧ h <+: s
  | [], sep => ⟨[], [], rfl, List.nil_prefix⟩
  | c :: rest, sep => by
    rw [split_char]
    by_cases hc : c = sep
    · exact ⟨[], _, by rw [if_pos hc], List.nil_prefix⟩
    · obtain ⟨h, t, heq, hpre⟩ := split_char_first rest sep
      rw [if_neg hc, heq]
      exact ⟨c :: h, t, rfl, List.cons_prefix_cons.mpr ⟨rfl, hpre⟩⟩

theorem mem_split_char_sub : ∀ (s : Str) (sep : Char) (l : Str),
    l ∈ split_char sep s → l <:+: s
  | [], sep, l => by
    rw [split_char]
    intro hm
    simp only [List.mem_singleton] at hm
    subst hm
    exact List.nil_infix
  | c :: rest, sep, l => by
    rw [split_char]
    by_cases hc : c = sep
    · rw [if_pos hc]
      intro hm
      rcases List.mem_cons.mp hm with h1 | h2
      · subst h1
        exact List.nil_infix
      · exact List.infix_cons (mem_split_char_sub rest sep l h2)
    · rw [if_neg hc]
      obtain ⟨h, t, heq, hpre⟩ := split_char_first rest sep
      rw [heq]
      intro hm
      rcases List.mem_cons.mp hm with h1 | h2
      · subst h1
        exact (List.cons_prefix_cons.mpr ⟨rfl, hpre⟩).isInfix
      · exact List.infix_cons
          (mem_split_char_sub rest sep l (heq ▸ List.mem_cons_of_mem h h2))

theorem contains_of_line_contains (code L pat : Str) (sep : Char)
    (hmem : L ∈ split_char sep code)
    (hc : contains pat (lower L) = true) :
    contains pat (lower code) = true := by
  obtain ⟨s, t, hst⟩ := mem_split_char_sub code sep L hmem
  have hlow : lower L <:+: lower code := by
    refine ⟨lower s, lower t, ?_⟩
    rw [← hst]
    simp [lower]
  exact (contains_iff _ _).mpr (((contains_iff _ _).mp hc).trans hlow)

end PyStr

/-- C4 counterexample: in the security verdict
`"security risk found\nline 12\nline 99"` the finding's line number is
first set to 12 by the second line, and the claim says the later
`line 99` token must not overwrite it — but the parsed finding carries
line 99, not 12. -/
theorem verdict_line_first_match_counterexample :
    (SecurityAgent.extract_vulnerabilities
        "security risk found\nline 12\nline 99".toList []).map Finding.line =
      [some 99] ∧
    ¬ (SecurityAgent.extract_vulnerabilities
        "security risk found\nline 12\nline 99".toList []).map Finding.line =
      [some 12] := by decide

/-- C4 amended: in the security and style verdict parsers, a `line <M>`
token on a non-trigger continuation line always sets the current
finding's line number, overwriting any previously set value — the last
match wins, not the first. -/
theorem verdict_line_number_overwrite
    (flushed : List Finding) (v : Finding) (line : Str) (m : Nat)
    (hsec : SecurityAgent.trigger_keywords.any
        (fun k => PyStr.contains k.toList (PyStr.lower line)) = false)
    (hsty : StyleAgent.trigger_keywords.any
        (fun k => PyStr.contains k.toList (PyStr.lower line)) = false)
    (hfind : PyStr.find_line_num (PyStr.lower line) = some m) :
    (SecurityAgent.verdict_step (flushed, some v) line).2 =
      some { v with
             line := some m,
             message := v.message ++ (' ' :: PyStr.strip line) } ∧
    (StyleAgent.verdict_step (flushed, some v) line).2 =
      some { v with
             line := some m,
             message := v.message ++ (' ' :: PyStr.strip line) } := by
  have hcont := PyStr.find_line_num_contains _ _ hfind
  constructor
  · rw [SecurityAgent.verdict_step]
    simp only [hsec, Bool.false_eq_true, if_false, hcont, if_true, hfind]
  · rw [StyleAgent.verdict_step]
    simp only [hsty, Bool.false_eq_true, if_false, hcont, if_true, hfind]

/-- Witness for C4's amended claim: a finding whose line number is
already 12 is updated to 99 by the continuation line `"line 99"` in both
parsers. -/
theorem verdict_line_number_overwrite_witness :
    (SecurityAgent.verdict_step
        ([], some { ftype := "security_issue", severity := some "critical",
                    message := "m".toList, line := some 12 })
        "line 99".toList).2 =
      some { ftype := "security_issue", severity := some "critical",
             message := ("m".toList ++
               (' ' :: PyStr.strip "line 99".toList)), line := some 99 } ∧
    (StyleAgent.verdict_step
        ([], some { ftype := "security_issue", severity := some "critical",
                    message := "m".toList, line := some 12 })
        "line 99".toList).2 =
      some { ftype := "security_issue", severity := some "critical",
             message := ("m".toList ++
               (' ' :: PyStr.strip "line 99".toList)), line := some 99 } :=
  verdict_line_number_overwrite []
    { ftype := "security_issue", severity := some "critical",
      message := "m".toList, line := some 12 }
    "line 99".toList 99 (by decide) (by decide) (by decide)

/-- C5 counterexample: the verdict text
`"CRITICAL: issue found\nline 12\nmore context"` contains no security
trigger keyword on its first line, so the security parser yields zero
findings, not the one claimed. -/
theorem security_verdict_scenario_counterexample :
    SecurityAgent.extract_vulnerabilities
      "CRITICAL: issue found\nline 12\nmore context".toList [] = [] ∧
    ¬ (SecurityAgent.extract_vulnerabilities
        "CRITICAL: issue found\nline 12\nmore context".toList []).length = 1 := by
  decide

/-- C5 amended: a verdict whose first line also carries a trigger keyword,
`"CRITICAL: security issue found\nline 12\nmore context"`, parses to
exactly one finding with severity critical and line 12. -/
theorem security_verdict_scenario_amended :
    (SecurityAgent.extract_vulnerabilities
        "CRITICAL: security issue found\nline 12\nmore context".toList
        []).map (fun f => (f.severity, f.line)) =
      [(some "critical", some 12)] := by decide

theorem mem_matching_lines (code : Str) (pattern : String) (i : Nat) (L : Str)
    (hget : (PyStr.split_char '\n' code).get? i = some L)
    (hc : PyStr.contains (PyStr.lower pattern.toList) (PyStr.lower L) = true) :
    (i + 1) ∈ SecurityAgent.matching_lines code pattern := by
  rw [SecurityAgent.matching_lines]
  refine List.mem_filterMap.mpr ⟨(i, L), ?_, ?_⟩
  · exact List.mem_enum_iff_get?.mpr hget
  · have hc2 : PyStr.contains (PyStr.lower pattern.data) (PyStr.lower L) =
        true := hc
    simp [hc2]

/-- C6 counterexample: with five earlier lines containing `password`, the
hardcoded-secrets match for the source whose sixth line is
`PASSWORD = "admin123"` lists lines 1–5 only — the claimed inclusion of
that line's number (6) fails. -/
theorem hardcoded_secret_truncation_counterexample :
    (PyStr.split_char '\n' c6_code).get? 5 =
      some "PASSWORD = \"admin123\"".toList ∧
    SecurityAgent.check_security_patterns c6_code =
      [{ ptype := "hardcoded_secrets", pattern := "password",
         lineNums := [1, 2, 3, 4, 5], severity := "critical" }] ∧
    (∀ mm ∈ SecurityAgent.check_security_patterns c6_code,
      ¬ (6 ∈ mm.lineNums)) := by decide

/-- C6 amended: for every source text one of whose lines is
`PASSWORD = "admin123"`, the heuristic scan records a hardcoded-secrets
match of severity critical for the pattern `password` listing the first 5
matching line numbers; that line's number is included whenever it is
among the first five matching lines; and the match is always included as
a critical finding in the extracted vulnerabilities. -/
theorem hardcoded_secret_detection_amended (code : Str) (i : Nat)
    (hline : (PyStr.split_char '\n' code).get? i =
      some "PASSWORD = \"admin123\"".toList) :
    ∃ mm ∈ SecurityAgent.check_security_patterns code,
      mm.ptype = "hardcoded_secrets" ∧ mm.pattern = "password" ∧
      mm.severity = "critical" ∧
      mm.lineNums = (SecurityAgent.matching_lines code "password").take 5 ∧
      (i + 1) ∈ SecurityAgent.matching_lines code "password" ∧
      (∀ j, j < 5 →
        (SecurityAgent.matching_lines code "password").get? j = some (i + 1) →
        (i + 1) ∈ mm.lineNums) ∧
      (∀ analysis_text, SecurityAgent.pattern_vuln mm ∈
        SecurityAgent.extract_vulnerabilities analysis_text
          (SecurityAgent.check_security_patterns code)) := by
  have hLc : PyStr.contains (PyStr.lower "password".toList)
      (PyStr.lower "PASSWORD = \"admin123\"".toList) = true := by decide
  have hcode : PyStr.contains (PyStr.lower "password".toList)
      (PyStr.lower code) = true :=
    PyStr.contains_of_line_contains code _ _ '\n'
      (List.get?_mem hline) hLc
  refine ⟨{ ptype := "hardcoded_secrets", pattern := "password",
            lineNums := (SecurityAgent.matching_lines code "password").take 5,
            severity := "critical" }, ?_, rfl, rfl, rfl, rfl, ?_, ?_, ?_⟩
  · rw [SecurityAgent.check_security_patterns, SecurityAgent.security_patterns]
    simp only [List.foldl_cons, List.foldl_nil, List.filterMap_cons, hcode,
      if_true]
    simp [SecurityAgent.get_pattern_severity]
  · exact mem_matching_lines code "password" i _ hline hLc
  · intro j hj hget
    have := List.get?_take (l := SecurityAgent.matching_lines code "password") hj
    rw [hget] at this
    exact List.get?_mem this
  · intro analysis_text
    rw [SecurityAgent.extract_vulnerabilities]
    refine List.mem_append_left _ (List.mem_filterMap.mpr
      ⟨{ ptype := "hardcoded_secrets", pattern := "password",
         lineNums := (SecurityAgent.matching_lines code "password").take 5,
         severity := "critical" }, ?_, ?_⟩)
    · rw [SecurityAgent.check_security_patterns, SecurityAgent.security_patterns]
      simp only [List.foldl_cons, List.foldl_nil, List.filterMap_cons, hcode,
        if_true]
      simp [SecurityAgent.get_pattern_severity]
    · simp

/-- Witness for C6's amended claim at the single-line source
`PASSWORD = "admin123"`. -/
theorem hardcoded_secret_detection_amended_witness :
    ∃ mm ∈ SecurityAgent.check_security_patterns
        "PASSWORD = \"admin123\"".toList,
      mm.ptype = "hardcoded_secrets" ∧ mm.pattern = "password" ∧
      mm.severity = "critical" ∧
      mm.lineNums =
        (SecurityAgent.matching_lines "PASSWORD = \"admin123\"".toList
          "password").take 5 ∧
      (0 + 1) ∈ SecurityAgent.matching_lines
        "PASSWORD = \"admin123\"".toList "password" ∧
      (∀ j, j < 5 → (SecurityAgent.matching_lines
          "PASSWORD = \"admin123\"".toList "password").get? j =
            some (0 + 1) →
        (0 + 1) ∈ mm.lineNums) ∧
      (∀ analysis_text, SecurityAgent.pattern_vuln mm ∈
        SecurityAgent.extract_vulnerabilities analysis_text
          (SecurityAgent.check_security_patterns
            "PASSWORD = \"admin123\"".toList)) :=
  hardcoded_secret_detection_amended "PASSWORD = \"admin123\"".toList 0
    (by decide)

theorem filter_not_isEmpty_iff (l : List Finding) (p : Finding → Bool) :
    (!(l.filter p).isEmpty) = true ↔ ∃ f ∈ l, p f = true := by
  simp [List.isEmpty_iff, List.filter_eq_nil]

/-- C2: for every completed review, `overall_severity` is `critical` iff
some collected finding (from a non-skipped, non-errored dimension) has
severity critical; else `high` iff one has severity high; else `medium`
iff at least one finding was collected; else `none`.  A finding's
severity is read with default `medium`, so a finding whose urgency axis
is the performance `impact` key (no `severity` key) counts as `medium`
and can never trigger the critical/high cases. -/
theorem overall_severity_characterisation
    (agent_results : List (String × Orchestrator.AgentEntry)) :
    ((Orchestrator.generate_summary agent_results).overall_severity =
        "critical" ↔
      ∃ f ∈ Orchestrator.collected_findings agent_results,
        Orchestrator.finding_severity f = "critical") ∧
    ((Orchestrator.generate_summary agent_results).overall_severity =
        "high" ↔
      (¬ ∃ f ∈ Orchestrator.collected_findings agent_results,
        Orchestrator.finding_severity f = "critical") ∧
      ∃ f ∈ Orchestrator.collected_findings agent_results,
        Orchestrator.finding_severity f = "high") ∧
    ((Orchestrator.generate_summary agent_results).overall_severity =
        "medium" ↔
      (¬ ∃ f ∈ Orchestrator.collected_findings agent_results,
        Orchestrator.finding_severity f = "critical") ∧
      (¬ ∃ f ∈ Orchestrator.collected_findings agent_results,
        Orchestrator.finding_severity f = "high") ∧
      Orchestrator.collected_findings agent_results ≠ []) ∧
    ((Orchestrator.generate_summary agent_results).overall_severity =
        "none" ↔
      Orchestrator.collected_findings agent_results = []) ∧
    (∀ f : Finding, f.severity = none →
      Orchestrator.finding_severity f = "medium") := by
  have hC := filter_not_isEmpty_iff
    (Orchestrator.collected_findings agent_results)
    (fun f => Orchestrator.finding_severity f == "critical")
  have hH := filter_not_isEmpty_iff
    (Orchestrator.collected_findings agent_results)
    (fun f => Orchestrator.finding_severity f == "high")
  simp only [beq_iff_eq] at hC hH
  have hlast : ∀ f : Finding, f.severity = none →
      Orchestrator.finding_severity f = "medium" := by
    intro f h
    rw [Orchestrator.finding_severity, h]
    rfl
  simp only [Orchestrator.generate_summary]
  by_cases hc : ∃ f ∈ Orchestrator.collected_findings agent_results,
      Orchestrator.finding_severity f = "critical"
  · have hne : Orchestrator.collected_findings agent_results ≠ [] := by
      obtain ⟨f, hf, _⟩ := hc
      exact List.ne_nil_of_mem hf
    rw [if_pos (hC.mpr hc)]
    exact ⟨by simp [hc], by simp [hc], by simp [hc], by simp [hne], hlast⟩
  · rw [if_neg (by rw [hC]; exact hc)]
    by_cases hh : ∃ f ∈ Orchestrator.collected_findings agent_results,
        Orchestrator.finding_severity f = "high"
    · have hne : Orchestrator.collected_findings agent_results ≠ [] := by
        obtain ⟨f, hf, _⟩ := hh
        exact List.ne_nil_of_mem hf
      rw [if_pos (hH.mpr hh)]
      exact ⟨by simp [hc], by simp [hc, hh], by simp [hh], by simp [hne],
        hlast⟩
    · rw [if_neg (by rw [hH]; exact hh)]
      by_cases ha : Orchestrator.collected_findings agent_results = []
      · rw [if_neg (by simp [ha])]
        exact ⟨by simp [hc], by simp [hh], by simp [ha], by simp [ha], hlast⟩
      · rw [if_pos (by simp [ha])]
        exact ⟨by simp [hc], by simp [hh], by simp [hc, hh, ha],
          by simp [ha], hlast⟩

set_option maxRecDepth 100000 in
/-- C3 counterexample: on the module of one documented function plus ten
bare try/except blocks (cyclomatic 11, nesting 3) all six agents run
without error and produce zero findings, yet `overall_score` is 59/6,
not 10.0: the performance score deducts 1.0 for cyclomatic > 10 without
any corresponding finding. -/
theorem zero_findings_perfect_score_counterexample :
    ((ce_entries 10).all (fun e => match e.2 with
      | .ok r => (Orchestrator.pick_issues r).isEmpty
      | .failed _ => false)) = true ∧
    (Orchestrator.generate_summary (ce_entries 10)).agents_run = 6 ∧
    (Orchestrator.generate_summary (ce_entries 10)).agents_failed = 0 ∧
    (Orchestrator.generate_summary (ce_entries 10)).total_issues = 0 ∧
    (Orchestrator.generate_summary (ce_entries 10)).overall_severity =
      "none" ∧
    (Orchestrator.generate_summary (ce_entries 10)).overall_score = 59 / 6 ∧
    ¬ (Orchestrator.generate_summary (ce_entries 10)).overall_score = 10 := by
  with_unfolding_all decide

theorem pick_issues_eq_nil {r : AgentResult}
    (h : Orchestrator.pick_issues r = []) :
    r.issues = [] ∧ r.vulnerabilities = [] := by
  rw [Orchestrator.pick_issues] at h
  by_cases hi : r.issues.isEmpty
  · rw [if_pos hi] at h
    exact ⟨List.isEmpty_iff.mp hi, h⟩
  · rw [if_neg hi] at h
    exact absurd (by simp [h]) hi

/-- C3 amended: if all six dimensions run without error, every dimension
produces zero findings, and the performance dimension's parsed
cyclomatic complexity is at most 10, then `overall_score` is 10.0 (the
mean of six perfect scores) and `overall_severity` is `none`.  (Zero
findings already forces nesting ≤ 3 and docstring coverage ≥ 80%, so
those deductions cannot fire; only the cyclomatic deduction needs the
extra hypothesis.) -/
theorem zero_findings_perfect_score_amended
    (code vsyn vsec vperf vsty vbp vdoc : Str) (language : String)
    (ast_r : Option ASTAnalyzer.ParseResult)
    (m : Option CMetrics) (stats : Option DocStats)
    (h1 : Orchestrator.pick_issues (SyntaxAnalyzerAgent.review vsyn ast_r) = [])
    (h2 : Orchestrator.pick_issues (SecurityAgent.review code vsec) = [])
    (h3 : Orchestrator.pick_issues (PerformanceAgent.review code vperf m) = [])
    (h4 : Orchestrator.pick_issues (StyleAgent.review code vsty language) = [])
    (h5 : Orchestrator.pick_issues (BestPracticesAgent.review code vbp ast_r) = [])
    (h6 : Orchestrator.pick_issues (DocumentationAgent.review code vdoc stats) = [])
    (hcyc : (m.map CMetrics.cyclomatic).getD 1 ≤ 10) :
    (Orchestrator.generate_summary
        [("syntax", .ok (SyntaxAnalyzerAgent.review vsyn ast_r)),
         ("security", .ok (SecurityAgent.review code vsec)),
         ("performance", .ok (PerformanceAgent.review code vperf m)),
         ("style", .ok (StyleAgent.review code vsty language)),
         ("best_practices", .ok (BestPracticesAgent.review code vbp ast_r)),
         ("documentation",
          .ok (DocumentationAgent.review code vdoc stats))]).overall_score =
      10 ∧
    (Orchestrator.generate_summary
        [("syntax", .ok (SyntaxAnalyzerAgent.review vsyn ast_r)),
         ("security", .ok (SecurityAgent.review code vsec)),
         ("performance", .ok (PerformanceAgent.review code vperf m)),
         ("style", .ok (StyleAgent.review code vsty language)),
         ("best_practices", .ok (BestPracticesAgent.review code vbp ast_r)),
         ("documentation",
          .ok (DocumentationAgent.review code vdoc
            stats))]).overall_severity = "none" ∧
    (Orchestrator.generate_summary
        [("syntax", .ok (SyntaxAnalyzerAgent.review vsyn ast_r)),
         ("security", .ok (SecurityAgent.review code vsec)),
         ("performance", .ok (PerformanceAgent.review code vperf m)),
         ("style", .ok (StyleAgent.review code vsty language)),
         ("best_practices", .ok (BestPracticesAgent.review code vbp ast_r)),
         ("documentation",
          .ok (DocumentationAgent.review code vdoc stats))]).total_issues =
      0 := by
  -- component emptiness facts
  have hv2 := (pick_issues_eq_nil h2).2
  simp only [SecurityAgent.review] at hv2
  have hi1 := (pick_issues_eq_nil h1).1
  simp only [SyntaxAnalyzerAgent.review] at hi1
  have hi3 := (pick_issues_eq_nil h3).1
  simp only [PerformanceAgent.review] at hi3
  have hi4 := (pick_issues_eq_nil h4).1
  simp only [StyleAgent.review] at hi4
  have hi5 := (pick_issues_eq_nil h5).1
  simp only [BestPracticesAgent.review] at hi5
  have hi6 := (pick_issues_eq_nil h6).1
  simp only [DocumentationAgent.review] at hi6
  -- performance facts
  have hnest : ¬ ((m.map CMetrics.max_nesting).getD 0 > 3) := by
    intro hgt
    have hp := hi3
    rw [PerformanceAgent.extract_performance_issues] at hp
    rcases List.append_eq_nil.mp hp with ⟨hpat, _⟩
    rw [PerformanceAgent.identify_performance_patterns] at hpat
    rcases List.append_eq_nil.mp hpat with ⟨hfirst, _⟩
    rw [if_pos hgt] at hfirst
    exact absurd hfirst (by simp)
  -- documentation coverage incurs no deduction
  have hcov50 : ¬ (DocumentationAgent.coverage_of stats < 50) := by
    intro hlt
    have hp := hi6
    rw [DocumentationAgent.extract_documentation_issues] at hp
    rcases List.append_eq_nil.mp hp with ⟨hdoc, _⟩
    rw [DocumentationAgent.check_documentation_patterns] at hdoc
    rcases List.append_eq_nil.mp hdoc with ⟨hfirst, _⟩
    rw [if_pos hlt] at hfirst
    exact absurd hfirst (by simp)
  have hcov80 : ¬ (DocumentationAgent.coverage_of stats < 80) := by
    intro hlt
    have hp := hi6
    rw [DocumentationAgent.extract_documentation_issues] at hp
    rcases List.append_eq_nil.mp hp with ⟨hdoc, _⟩
    rw [DocumentationAgent.check_documentation_patterns] at hdoc
    rcases List.append_eq_nil.mp hdoc with ⟨hfirst, _⟩
    rw [if_neg hcov50, if_pos hlt] at hfirst
    exact absurd hfirst (by simp)
  -- per-agent score-dict contributions
  have e1 : Orchestrator.result_scores (SyntaxAnalyzerAgent.review vsyn ast_r)
      = [("syntax", (10 : ℚ))] := by
    cases ast_r with
    | none => simp [SyntaxAnalyzerAgent.review, Orchestrator.result_scores]
    | some r =>
      have hvalid : r.valid = true := by
        rw [SyntaxAnalyzerAgent.extract_issues] at hi1
        rcases List.append_eq_nil.mp hi1 with ⟨hfirst, _⟩
        by_cases hv : r.valid
        · exact hv
        · rw [if_pos (by simp [hv])] at hfirst
          exact absurd hfirst (by simp)
      simp [SyntaxAnalyzerAgent.review, Orchestrator.result_scores, hvalid]
  have e2 : Orchestrator.result_scores (SecurityAgent.review code vsec)
      = [("security", (10 : ℚ))] := by
    simp only [SecurityAgent.review, Orchestrator.result_scores, hv2,
      SecurityAgent.calculate_security_score]
    rfl
  have e3 : Orchestrator.result_scores (PerformanceAgent.review code vperf m)
      = [("performance", (10 : ℚ))] := by
    simp only [PerformanceAgent.review, Orchestrator.result_scores, hi3]
    have : PerformanceAgent.calculate_performance_score [] m = 10 := by
      have c20 : ¬ ((Option.map CMetrics.cyclomatic m).getD 1 > 20) := by
        omega
      have c10 : ¬ ((Option.map CMetrics.cyclomatic m).getD 1 > 10) := by
        omega
      have n4 : ¬ ((Option.map CMetrics.max_nesting m).getD 0 > 4) := by
        omega
      rw [PerformanceAgent.calculate_performance_score]
      simp only [List.foldl_nil, if_neg c20, if_neg c10, if_neg n4,
        if_neg hnest]
      norm_num
    rw [this]
    simp
  have e4 : Orchestrator.result_scores (StyleAgent.review code vsty language)
      = [("style", (10 : ℚ))] := by
    simp only [StyleAgent.review, Orchestrator.result_scores, hi4,
      StyleAgent.calculate_style_score]
    rfl
  have e5 : Orchestrator.result_scores (BestPracticesAgent.review code vbp
      ast_r) = [("best_practices", (10 : ℚ))] := by
    simp only [BestPracticesAgent.review, Orchestrator.result_scores, hi5,
      BestPracticesAgent.calculate_best_practices_score]
    rfl
  have e6 : Orchestrator.result_scores (DocumentationAgent.review code vdoc
      stats) = [("documentation", (10 : ℚ))] := by
    simp only [DocumentationAgent.review, Orchestrator.result_scores, hi6]
    have : DocumentationAgent.calculate_documentation_score [] stats = 10 := by
      rw [DocumentationAgent.calculate_documentation_score]
      simp only [List.foldl_nil]
      rw [if_neg hcov50, if_neg hcov80]
      norm_num
    rw [this]
    simp
  -- collected findings are empty
  have hcol : Orchestrator.collected_findings
      [("syntax", .ok (SyntaxAnalyzerAgent.review vsyn ast_r)),
       ("security", .ok (SecurityAgent.review code vsec)),
       ("performance", .ok (PerformanceAgent.review code vperf m)),
       ("style", .ok (StyleAgent.review code vsty language)),
       ("best_practices", .ok (BestPracticesAgent.review code vbp ast_r)),
       ("documentation", .ok (DocumentationAgent.review code vdoc stats))]
      = [] := by
    simp only [Orchestrator.collected_findings, List.foldl_cons,
      List.foldl_nil, h1, h2, h3, h4, h5, h6, List.map_nil,
      List.append_nil]
  -- the scores dict
  have hsc : Orchestrator.gather_scores
      [("syntax", .ok (SyntaxAnalyzerAgent.review vsyn ast_r)),
       ("security", .ok (SecurityAgent.review code vsec)),
       ("performance", .ok (PerformanceAgent.review code vperf m)),
       ("style", .ok (StyleAgent.review code vsty language)),
       ("best_practices", .ok (BestPracticesAgent.review code vbp ast_r)),
       ("documentation", .ok (DocumentationAgent.review code vdoc stats))]
      = [("syntax", 10), ("security", 10), ("performance", 10),
         ("style", 10), ("best_practices", 10), ("documentation", 10)] := by
    simp only [Orchestrator.gather_scores, List.foldl_cons, List.foldl_nil,
      e1, e2, e3, e4, e5, e6]
    simp [Orchestrator.upsert]
  refine ⟨?_, ?_, ?_⟩
  · simp only [Orchestrator.generate_summary, hcol, hsc]
    norm_num
  · simp only [Orchestrator.generate_summary, hcol]
    simp
  · simp only [Orchestrator.generate_summary, hcol]
    simp

set_option maxRecDepth 100000 in
/-- Witness for C3's amended claim: on the module of one documented
function plus five bare try/except blocks (cyclomatic 6, nesting 3) all
six dimensions produce zero findings and the summary is perfect. -/
theorem zero_findings_perfect_score_amended_witness :
    (Orchestrator.generate_summary (ce_entries 5)).overall_score = 10 ∧
    (Orchestrator.generate_summary (ce_entries 5)).overall_severity =
      "none" ∧
    (Orchestrator.generate_summary (ce_entries 5)).total_issues = 0 :=
  zero_findings_perfect_score_amended (ce_code 5) [] [] [] [] [] []
    "python" (some (ce_parse_result 5))
    (some (ASTAnalyzer.calculate_complexity (ce_module 5)))
    (some (DocumentationAgent.analyze_docstrings (ce_parse_result 5)))
    (by with_unfolding_all decide) (by with_unfolding_all decide)
    (by with_unfolding_all decide) (by with_unfolding_all decide)
    (by with_unfolding_all decide) (by with_unfolding_all decide)
    (by with_unfolding_all decide)
